import Mathlib

/-
Verification of the PhoneBook program (src/main.py).

The embedding below translates the program into Lean:
  - class PhoneBookEntry        -> structure PhoneBookEntry, the field setters
                                   become functions returning Except (a raised
                                   ValueError is an Except.error).
  - str.isdigit / str.split     -> pyIsDigit / pySplit (ASCII whitespace and
                                   ASCII decimal digits; Unicode categories
                                   beyond ASCII are not modelled).
  - read_phone_book             -> read_phone_book over the list of lines of
                                   the file (file I/O itself is out of scope).
  - sort_phone_book             -> sort_phone_book; Python sorted is specified
                                   to be a stable sort, and reverse=True
                                   reverses the comparison while ties keep
                                   their original order.  A stable sort is
                                   uniquely determined by the comparison, so
                                   List.insertionSort (stable, via
                                   orderedInsert) models it.  sys.exit on a
                                   bad criterion becomes Except.error.
  - validate_phone_book_entry   -> validate_phone_book_entry.
-/

/-- One phone-book record, mirroring class PhoneBookEntry in main.py.
In Python every field defaults to the empty string and the bulk constructor
stores the raw values without any validation. -/
structure PhoneBookEntry where
  name : String
  surname : String
  separator : String
  phone_number : String
  deriving Repr, DecidableEq

/-- Python str.isdigit restricted to ASCII decimal digits: true iff the
string is nonempty and every character is a decimal digit. -/
def pyIsDigit (s : String) : Bool :=
  !s.data.isEmpty && s.data.all Char.isDigit

/-- Python whitespace as used by str.split() with no arguments, restricted
to the ASCII range: space, tab, newline, vertical tab, form feed, carriage
return. -/
def pyIsSpace (c : Char) : Bool :=
  c = ' ' || c = '\t' || c = '\n' || c = '\x0b' || c = '\x0c' || c = '\r'

/-- The name setter of PhoneBookEntry: raises ValueError on an empty name,
otherwise stores the value. -/
def set_name (e : PhoneBookEntry) (v : String) : Except String PhoneBookEntry :=
  if v = "" then Except.error "Name cannot be empty"
  else Except.ok ⟨v, e.surname, e.separator, e.phone_number⟩

/-- The surname setter of PhoneBookEntry: raises ValueError on an empty
surname, otherwise stores the value. -/
def set_surname (e : PhoneBookEntry) (v : String) : Except String PhoneBookEntry :=
  if v = "" then Except.error "Surname cannot be empty"
  else Except.ok ⟨e.name, v, e.separator, e.phone_number⟩

/-- The separator setter of PhoneBookEntry: the value must be one of the two
literal strings, otherwise ValueError. -/
def set_separator (e : PhoneBookEntry) (v : String) : Except String PhoneBookEntry :=
  if v = "-" ∨ v = ":" then Except.ok ⟨e.name, e.surname, v, e.phone_number⟩
  else Except.error "Separator must be \x27-\x27 or \x27:\x27"

/-- The phone_number setter of PhoneBookEntry: first the digit check
(str.isdigit), then the length-9 check; on success the raw value is stored. -/
def set_phone_number (e : PhoneBookEntry) (v : String) : Except String PhoneBookEntry :=
  if pyIsDigit v = false then Except.error "Phone number must be numeric"
  else if v.length ≠ 9 then Except.error "Phone number must be 9 digits long"
  else Except.ok ⟨e.name, e.surname, e.separator, v⟩

/-- Translation of validate_phone_book_entry: the four checks run
independently, in this fixed order, each appending its message. -/
def validate_phone_book_entry (e : PhoneBookEntry) : List String :=
  (if e.name = "" then ["Name cannot be empty"] else []) ++
    ((if pyIsDigit e.phone_number = false then ["phone number must be numeric"] else []) ++
      ((if e.phone_number.length ≠ 9 then ["phone number must be 9 digits"] else []) ++
        (if e.separator ≠ ":" ∧ e.separator ≠ "-" then ["the separator should be `:` or `-`"]
          else [])))

/-- C1 (counterexample): the claim says the Validator on
Entry("John", "Smith", "-", "12345678a") returns BOTH "phone number must be
numeric" and "phone number must be 9 digits".  It does not: the string has
length exactly 9, so the length check passes and only the numeric message is
produced. -/
theorem validate_nonnumeric_9char_not_both_messages :
    ¬ ("phone number must be numeric" ∈
          validate_phone_book_entry ⟨"John", "Smith", "-", "12345678a"⟩ ∧
        "phone number must be 9 digits" ∈
          validate_phone_book_entry ⟨"John", "Smith", "-", "12345678a"⟩) := by
  decide

/-- C1 (amended): the Validator on Entry("John", "Smith", "-", "12345678a")
returns exactly ["phone number must be numeric"]: the numeric check fails but
the length check passes, since the value is 9 characters long. -/
theorem validate_nonnumeric_9char_exact :
    validate_phone_book_entry ⟨"John", "Smith", "-", "12345678a"⟩ =
      ["phone number must be numeric"] := by
  decide

/-- C7: the bulk Entry constructor never fails and performs no validation,
storing exactly the four raw argument strings in the corresponding fields
(it is a total function into PhoneBookEntry, not an Except). -/
theorem entry_mk_raw (n s sep p : String) :
    (PhoneBookEntry.mk n s sep p).name = n ∧
      (PhoneBookEntry.mk n s sep p).surname = s ∧
      (PhoneBookEntry.mk n s sep p).separator = sep ∧
      (PhoneBookEntry.mk n s sep p).phone_number = p :=
  ⟨rfl, rfl, rfl, rfl⟩

/-- C8: the phone_number setter succeeds exactly when the value consists only
of decimal digits and has length exactly 9; the digit check runs first, so a
value containing a non-digit fails with the numeric message regardless of its
length; on success exactly the raw value is stored and no other field
changes. -/
theorem set_phone_number_spec (e : PhoneBookEntry) (v : String) :
    ((∃ e2, set_phone_number e v = Except.ok e2) ↔
        (v.data.all Char.isDigit = true ∧ v.length = 9)) ∧
      (v.data.all Char.isDigit = false →
        set_phone_number e v = Except.error "Phone number must be numeric") ∧
      (∀ e2, set_phone_number e v = Except.ok e2 →
        e2.phone_number = v ∧ e2.name = e.name ∧ e2.surname = e.surname ∧
          e2.separator = e.separator) := by
  refine ⟨⟨?_, ?_⟩, ?_, ?_⟩
  · rintro ⟨e2, h⟩
    unfold set_phone_number at h
    split at h
    · exact absurd h (by simp)
    · split at h
      · exact absurd h (by simp)
      · rename_i hdig hlen
        refine ⟨?_, by omega⟩
        have : pyIsDigit v = true := by
          cases h2 : pyIsDigit v
          · exact absurd h2 hdig
          · rfl
        unfold pyIsDigit at this
        exact (Bool.and_eq_true _ _ |>.mp this).2
  · rintro ⟨hdig, hlen⟩
    have hne : v.data ≠ [] := by
      intro hnil
      have : v.length = 0 := by
        simp [String.length, hnil]
      omega
    have hd : pyIsDigit v = true := by
      unfold pyIsDigit
      simp [hdig, List.isEmpty_iff, hne]
    refine ⟨⟨e.name, e.surname, e.separator, v⟩, ?_⟩
    unfold set_phone_number
    rw [hd]
    simp [hlen]
  · intro hdig
    unfold set_phone_number
    have : pyIsDigit v = false := by
      unfold pyIsDigit
      simp [hdig]
    rw [this]
    simp
  · intro e2 h
    unfold set_phone_number at h
    split at h
    · exact absurd h (by simp)
    · split at h
      · exact absurd h (by simp)
      · have h3 := (Except.ok.inj h).symm
        subst h3
        exact ⟨rfl, rfl, rfl, rfl⟩

/-- C8 witness: concrete applications of set_phone_number_spec: a value with
a non-digit character fails with the numeric message, and a valid 9-digit
value is stored raw with the other fields unchanged. -/
theorem set_phone_number_spec_witness :
    set_phone_number ⟨"Ann", "Lee", "-", ""⟩ "12345678a" =
        Except.error "Phone number must be numeric" ∧
      (⟨"Ann", "Lee", "-", "123456789"⟩ : PhoneBookEntry).phone_number = "123456789" ∧
        (⟨"Ann", "Lee", "-", "123456789"⟩ : PhoneBookEntry).name =
          (⟨"Ann", "Lee", "-", ""⟩ : PhoneBookEntry).name ∧
        (⟨"Ann", "Lee", "-", "123456789"⟩ : PhoneBookEntry).surname =
          (⟨"Ann", "Lee", "-", ""⟩ : PhoneBookEntry).surname ∧
        (⟨"Ann", "Lee", "-", "123456789"⟩ : PhoneBookEntry).separator =
          (⟨"Ann", "Lee", "-", ""⟩ : PhoneBookEntry).separator :=
  ⟨(set_phone_number_spec ⟨"Ann", "Lee", "-", ""⟩ "12345678a").2.1 (by decide),
    (set_phone_number_spec ⟨"Ann", "Lee", "-", ""⟩ "123456789").2.2
      ⟨"Ann", "Lee", "-", "123456789"⟩ rfl⟩

/-- Lexicographic character-ordinal comparison of character lists: Python
compares strings by code points, left to right, shorter prefix first. -/
def charListLe : List Char → List Char → Bool
  | [], _ => true
  | _ :: _, [] => false
  | a :: as, b :: bs =>
    if a.toNat < b.toNat then true
    else if b.toNat < a.toNat then false
    else charListLe as bs

/-- Python string less-or-equal, by code points. -/
def strLe (a b : String) : Bool :=
  charListLe a.data b.data

theorem charListLe_refl : ∀ l : List Char, charListLe l l = true
  | [] => rfl
  | a :: as => by
    unfold charListLe
    rw [if_neg (Nat.lt_irrefl _), if_neg (Nat.lt_irrefl _)]
    exact charListLe_refl as

theorem charListLe_total : ∀ a b : List Char, charListLe a b = true ∨ charListLe b a = true
  | [], _ => Or.inl rfl
  | _ :: _, [] => Or.inr rfl
  | a :: as, b :: bs => by
    unfold charListLe
    rcases Nat.lt_trichotomy a.toNat b.toNat with h | h | h
    · left
      rw [if_pos h]
    · rw [h]
      rw [if_neg (Nat.lt_irrefl _), if_neg (Nat.lt_irrefl _), if_neg (Nat.lt_irrefl _),
        if_neg (Nat.lt_irrefl _)]
      exact charListLe_total as bs
    · right
      rw [if_pos h]

theorem charListLe_trans : ∀ a b c : List Char,
    charListLe a b = true → charListLe b c = true → charListLe a c = true
  | [], _, _, _, _ => rfl
  | _ :: _, [], _, h1, _ => by simp [charListLe] at h1
  | _ :: _, _ :: _, [], _, h2 => by simp [charListLe] at h2
  | a :: as, b :: bs, c :: cs, h1, h2 => by
    unfold charListLe at h1 h2 ⊢
    by_cases hab : a.toNat < b.toNat
    · rw [if_pos hab] at h1
      by_cases hbc : b.toNat < c.toNat
      · rw [if_pos (Nat.lt_trans hab hbc)]
      · rw [if_neg hbc] at h2
        by_cases hcb : c.toNat < b.toNat
        · rw [if_pos hcb] at h2
          simp at h2
        · rw [if_pos (by omega : a.toNat < c.toNat)]
    · rw [if_neg hab] at h1
      by_cases hba : b.toNat < a.toNat
      · rw [if_pos hba] at h1
        simp at h1
      · rw [if_neg hba] at h1
        by_cases hbc : b.toNat < c.toNat
        · rw [if_pos (by omega : a.toNat < c.toNat)]
        · rw [if_neg hbc] at h2
          by_cases hcb : c.toNat < b.toNat
          · rw [if_pos hcb] at h2
            simp at h2
          · rw [if_neg hcb] at h2
            rw [if_neg (by omega : ¬a.toNat < c.toNat),
              if_neg (by omega : ¬c.toNat < a.toNat)]
            exact charListLe_trans as bs cs h1 h2

/-- Field access getattr(entry, criteria), as used by the sort key; the
surrounding guard ensures criteria is one of the three field names. -/
def entryField (criteria : String) (e : PhoneBookEntry) : String :=
  if criteria = "name" then e.name
  else if criteria = "surname" then e.surname
  else e.phone_number

/-- Comparison used by the stable sort: code-point comparison of the chosen
field, reversed when rev is set (Python sorted with reverse=True reverses the
comparison while ties keep their original order). -/
def entryLe (criteria : String) (rev : Bool) (a b : PhoneBookEntry) : Bool :=
  if rev then strLe (entryField criteria b) (entryField criteria a)
  else strLe (entryField criteria a) (entryField criteria b)

/-- entryLe as a relation, for List.insertionSort. -/
def entryRel (criteria : String) (rev : Bool) (a b : PhoneBookEntry) : Prop :=
  entryLe criteria rev a b = true

instance (criteria : String) (rev : Bool) : DecidableRel (entryRel criteria rev) :=
  fun a b => instDecidableEqBool (entryLe criteria rev a b) true

theorem entryLe_total (criteria : String) (rev : Bool) (a b : PhoneBookEntry) :
    entryLe criteria rev a b = true ∨ entryLe criteria rev b a = true := by
  cases rev
  · exact charListLe_total _ _
  · exact charListLe_total _ _

theorem entryLe_trans (criteria : String) (rev : Bool) (a b c : PhoneBookEntry) :
    entryLe criteria rev a b = true → entryLe criteria rev b c = true →
      entryLe criteria rev a c = true := by
  cases rev
  · exact fun h1 h2 => charListLe_trans _ _ _ h1 h2
  · exact fun h1 h2 => charListLe_trans _ _ _ h2 h1

instance (criteria : String) (rev : Bool) : IsTotal PhoneBookEntry (entryRel criteria rev) :=
  ⟨fun a b => entryLe_total criteria rev a b⟩

instance (criteria : String) (rev : Bool) : IsTrans PhoneBookEntry (entryRel criteria rev) :=
  ⟨fun a b c => entryLe_trans criteria rev a b c⟩

/-- Model of Python sorted(entries, key, reverse): Python specifies sorted to
be a stable sort, and a stable sort is uniquely determined by its comparison;
insertion sort via orderedInsert is that stable sort. -/
def pySorted (criteria : String) (rev : Bool) (entries : List PhoneBookEntry) :
    List PhoneBookEntry :=
  List.insertionSort (entryRel criteria rev) entries

/-- Translation of sort_phone_book: the criterion must be one of the three
field names, otherwise the program prints the warning and exits (modelled as
Except.error); descending exactly when the ordering token is "descending". -/
def sort_phone_book (entries : List PhoneBookEntry) (criteria ordering : String) :
    Except String (List PhoneBookEntry) :=
  if criteria ∈ (["name", "surname", "phone_number"] : List String) then
    Except.ok (pySorted criteria (decide (ordering = "descending")) entries)
  else
    Except.error "War: Wrong criteria, please choose one of this [Name, Surname, Phone_Number] "

/-- Sample entry used by concrete witnesses. -/
def sampleA : PhoneBookEntry := ⟨"Ann", "Lee", "-", "123456789"⟩

/-- Sample entry sharing its name with sampleA, used by concrete witnesses. -/
def sampleB : PhoneBookEntry := ⟨"Ann", "Zed", ":", "987654321"⟩

/-- Sample entry with an empty surname, used by concrete witnesses. -/
def sampleC : PhoneBookEntry := ⟨"Bob", "", ":", "12345"⟩

/-- C4: sorting with a criterion outside the three field names fails with the
fatal wrong-criteria error (sys.exit, modelled as Except.error) and produces
no sorted result; a criterion in the set never fails. -/
theorem sort_invalid_criteria (entries : List PhoneBookEntry) (criteria ordering : String) :
    (criteria ∉ (["name", "surname", "phone_number"] : List String) →
        sort_phone_book entries criteria ordering =
          Except.error
            "War: Wrong criteria, please choose one of this [Name, Surname, Phone_Number] ") ∧
      (criteria ∈ (["name", "surname", "phone_number"] : List String) →
        ∃ out, sort_phone_book entries criteria ordering = Except.ok out) := by
  constructor
  · intro h
    unfold sort_phone_book
    rw [if_neg h]
  · intro h
    unfold sort_phone_book
    rw [if_pos h]
    exact ⟨_, rfl⟩

/-- C4 witness: the criterion "age" fails, the criterion "name" succeeds. -/
theorem sort_invalid_criteria_witness :
    sort_phone_book [] "age" "" =
        Except.error
          "War: Wrong criteria, please choose one of this [Name, Surname, Phone_Number] " ∧
      ∃ out, sort_phone_book [] "name" "" = Except.ok out :=
  ⟨(sort_invalid_criteria [] "age" "").1 (by decide),
    (sort_invalid_criteria [] "name" "").2 (by decide)⟩

/-- C5: given a valid criterion, the sort is descending exactly when the
ordering token equals the literal "descending"; every other ordering string
(including the empty string) yields the ascending sort and no error. -/
theorem sort_ordering_flag (entries : List PhoneBookEntry) (criteria ordering : String)
    (hc : criteria ∈ (["name", "surname", "phone_number"] : List String)) :
    (ordering = "descending" →
        sort_phone_book entries criteria ordering =
          Except.ok (pySorted criteria true entries)) ∧
      (ordering ≠ "descending" →
        sort_phone_book entries criteria ordering =
          Except.ok (pySorted criteria false entries)) := by
  constructor
  · intro h
    unfold sort_phone_book
    rw [if_pos hc, decide_eq_true h]
  · intro h
    unfold sort_phone_book
    rw [if_pos hc, decide_eq_false h]

/-- C5 witness: concrete ordering tokens "descending", "up" and "". -/
theorem sort_ordering_flag_witness :
    sort_phone_book [] "name" "descending" = Except.ok (pySorted "name" true []) ∧
      sort_phone_book [] "name" "up" = Except.ok (pySorted "name" false []) ∧
      sort_phone_book [] "name" "" = Except.ok (pySorted "name" false []) :=
  ⟨(sort_ordering_flag [] "name" "descending" (by decide)).1 rfl,
    (sort_ordering_flag [] "name" "up" (by decide)).2 (by decide),
    (sort_ordering_flag [] "name" "" (by decide)).2 (by decide)⟩

/-- C9: whenever the sort succeeds, the output is a permutation of the input:
no entry is added, dropped or modified, and the length is unchanged. -/
theorem sort_perm (entries : List PhoneBookEntry) (criteria ordering : String)
    (out : List PhoneBookEntry)
    (h : sort_phone_book entries criteria ordering = Except.ok out) :
    out.Perm entries ∧ out.length = entries.length := by
  unfold sort_phone_book at h
  split at h
  · have hperm :=
      List.perm_insertionSort (entryRel criteria (decide (ordering = "descending"))) entries
    have heq := Except.ok.inj h
    subst heq
    exact ⟨hperm, hperm.length_eq⟩
  · exact absurd h (by simp)

/-- C9 witness: sorting two concrete entries by name permutes them. -/
theorem sort_perm_witness :
    ([sampleA, sampleC] : List PhoneBookEntry).Perm [sampleC, sampleA] ∧
      ([sampleA, sampleC] : List PhoneBookEntry).length = [sampleC, sampleA].length :=
  sort_perm [sampleC, sampleA] "name" "" [sampleA, sampleC] rfl

/-- C3: whenever the sort succeeds, any ordering token other than
"descending" yields chosen-field values non-decreasing under lexicographic
character-ordinal comparison, and "descending" yields non-increasing
values. -/
theorem sort_sorted (entries : List PhoneBookEntry) (criteria ordering : String)
    (out : List PhoneBookEntry)
    (h : sort_phone_book entries criteria ordering = Except.ok out) :
    (ordering ≠ "descending" →
        out.Pairwise
          (fun a b => strLe (entryField criteria a) (entryField criteria b) = true)) ∧
      (ordering = "descending" →
        out.Pairwise
          (fun a b => strLe (entryField criteria b) (entryField criteria a) = true)) := by
  unfold sort_phone_book at h
  split at h
  · have heq := Except.ok.inj h
    constructor
    · intro hord
      rw [decide_eq_false hord] at heq
      subst heq
      have hs := List.sorted_insertionSort (entryRel criteria false) entries
      exact List.Pairwise.imp (fun hab => hab) hs
    · intro hord
      rw [decide_eq_true hord] at heq
      subst heq
      have hs := List.sorted_insertionSort (entryRel criteria true) entries
      exact List.Pairwise.imp (fun hab => hab) hs
  · exact absurd h (by simp)

/-- C3 witness: ascending sort by name of two concrete entries is
non-decreasing on the name field. -/
theorem sort_sorted_witness :
    ([sampleA, sampleC] : List PhoneBookEntry).Pairwise
      (fun a b => strLe (entryField "name" a) (entryField "name" b) = true) :=
  (sort_sorted [sampleC, sampleA] "name" "" [sampleA, sampleC] rfl).1 (by decide)

/-- C2: the sort is stable in both modes: whenever the sort succeeds, two
input entries with equal values on the chosen field appear in the output in
their original relative order (their two-element sublist is preserved). -/
theorem sort_stable (entries : List PhoneBookEntry) (criteria ordering : String)
    (i j : Fin entries.length) (hij : i < j)
    (heq : entryField criteria (entries.get i) = entryField criteria (entries.get j))
    (out : List PhoneBookEntry)
    (h : sort_phone_book entries criteria ordering = Except.ok out) :
    [entries.get i, entries.get j].Sublist out := by
  unfold sort_phone_book at h
  split at h
  · have hout := Except.ok.inj h
    subst hout
    have hsub : [entries.get i, entries.get j].Sublist entries := by
      have hpw : List.Pairwise (fun x1 x2 : Fin entries.length => x1.val < x2.val) [i, j] := by
        refine List.Pairwise.cons ?_ (List.pairwise_singleton _ _)
        intro k hk
        rw [List.mem_singleton] at hk
        subst hk
        exact hij
      have := List.map_get_sublist hpw
      simpa using this
    have hr :
        entryRel criteria (decide (ordering = "descending"))
          (entries.get i) (entries.get j) := by
      unfold entryRel entryLe
      split
      · rw [heq]
        exact charListLe_refl _
      · rw [heq]
        exact charListLe_refl _
    exact List.pair_sublist_insertionSort hr hsub
  · exact absurd h (by simp)

/-- C2 witness: two entries with the same name keep their relative order
under a descending sort by name. -/
theorem sort_stable_witness :
    [sampleA, sampleB].Sublist [sampleA, sampleB] :=
  sort_stable [sampleA, sampleB] "name" "descending" ⟨0, by decide⟩ ⟨1, by decide⟩
    (by decide) rfl [sampleA, sampleB] rfl

/-- Tokenizer behind Python str.split() with no arguments: split on runs of
whitespace, dropping empty tokens; acc holds the current token reversed. -/
def pySplitAux : List Char → List Char → List (List Char)
  | acc, [] => if acc.isEmpty then [] else [acc.reverse]
  | acc, c :: cs =>
    if pyIsSpace c then
      if acc.isEmpty then pySplitAux [] cs
      else acc.reverse :: pySplitAux [] cs
    else pySplitAux (c :: acc) cs

/-- Python line.strip().split(): strip is redundant because split() with no
arguments already ignores leading and trailing whitespace. -/
def pySplit (s : String) : List String :=
  (pySplitAux [] s.data).map String.mk

/-- The per-line logic of read_phone_book: 4 tokens fill all four fields in
order, 3 tokens leave the surname as its default empty string, any other
token count produces no entry. -/
def parseLine (line : String) : Option PhoneBookEntry :=
  match pySplit line with
  | [n, s, sep, p] => some ⟨n, s, sep, p⟩
  | [n, sep, p] => some ⟨n, "", sep, p⟩
  | _ => none

/-- The accumulating loop of read_phone_book: accepted entries are appended
to the list in file order. -/
def readAux : List PhoneBookEntry → List String → List PhoneBookEntry
  | acc, [] => acc
  | acc, line :: rest =>
    match pySplit line with
    | [n, s, sep, p] => readAux (acc ++ [⟨n, s, sep, p⟩]) rest
    | [n, sep, p] => readAux (acc ++ [⟨n, "", sep, p⟩]) rest
    | _ => readAux acc rest

/-- Translation of read_phone_book over the list of lines of the file (the
file-not-found and IOError exits concern the file system, out of scope
here). -/
def read_phone_book (lines : List String) : List PhoneBookEntry :=
  readAux [] lines

theorem readAux_cons (acc : List PhoneBookEntry) (line : String) (rest : List String) :
    readAux acc (line :: rest) = readAux (acc ++ (parseLine line).toList) rest := by
  rcases hs : pySplit line with _ | ⟨a, _ | ⟨b, _ | ⟨c, _ | ⟨d, _ | ⟨e, tl⟩⟩⟩⟩⟩ <;>
    simp [readAux, parseLine, hs]

theorem readAux_acc : ∀ (lines : List String) (acc : List PhoneBookEntry),
    readAux acc lines = acc ++ readAux [] lines
  | [], acc => by simp [readAux]
  | line :: rest, acc => by
    rw [readAux_cons acc line rest, readAux_cons [] line rest,
      readAux_acc rest (acc ++ (parseLine line).toList),
      readAux_acc rest ([] ++ (parseLine line).toList)]
    simp

theorem read_phone_book_eq_filterMap (lines : List String) :
    read_phone_book lines = lines.filterMap parseLine := by
  induction lines with
  | nil => rfl
  | cons line rest ih =>
    unfold read_phone_book at ih ⊢
    rw [readAux_cons [] line rest, readAux_acc rest ([] ++ (parseLine line).toList),
      List.filterMap_cons]
    cases hp : parseLine line <;> simp [ih]

/-- C6: for every input line, the parser splits on runs of whitespace; with
exactly 4 tokens it builds the Entry from the tokens in order, with exactly
3 tokens it builds the Entry with the surname left as the default empty
string, and with any other token count it produces no entry; accepted
entries appear in the output in file order (the output is exactly the
filterMap of the per-line parse over the lines). -/
theorem read_phone_book_spec (lines : List String) (line : String) :
    read_phone_book lines = lines.filterMap parseLine ∧
      (∀ n s sep p, pySplit line = [n, s, sep, p] →
        parseLine line = some ⟨n, s, sep, p⟩) ∧
      (∀ n sep p, pySplit line = [n, sep, p] →
        parseLine line = some ⟨n, "", sep, p⟩) ∧
      ((pySplit line).length ≠ 3 → (pySplit line).length ≠ 4 →
        parseLine line = none) := by
  refine ⟨read_phone_book_eq_filterMap lines, ?_, ?_, ?_⟩
  · intro n s sep p h
    unfold parseLine
    rw [h]
  · intro n sep p h
    unfold parseLine
    rw [h]
  · intro h3 h4
    unfold parseLine
    rcases hs : pySplit line with _ | ⟨a, _ | ⟨b, _ | ⟨c, _ | ⟨d, _ | ⟨e, tl⟩⟩⟩⟩⟩ <;>
      simp_all [hs]

/-- C6 witness: a 4-token line, a 3-token line, a 2-token line and the
resulting list in file order. -/
theorem read_phone_book_spec_witness :
    parseLine "Ann Lee - 123456789" = some sampleA ∧
      parseLine "Bob : 12345" = some sampleC ∧
      parseLine "x y" = none ∧
      read_phone_book ["Ann Lee - 123456789", "x y", "Bob : 12345"] =
        ["Ann Lee - 123456789", "x y", "Bob : 12345"].filterMap parseLine :=
  ⟨(read_phone_book_spec [] "Ann Lee - 123456789").2.1 "Ann" "Lee" "-" "123456789" (by decide),
    (read_phone_book_spec [] "Bob : 12345").2.2.1 "Bob" ":" "12345" (by decide),
    (read_phone_book_spec [] "x y").2.2.2 (by decide) (by decide),
    (read_phone_book_spec ["Ann Lee - 123456789", "x y", "Bob : 12345"] "").1⟩

theorem pySplitAux_sound : ∀ (cs acc : List Char),
    (∀ c ∈ acc, pyIsSpace c = false) →
    ∀ t ∈ pySplitAux acc cs, t ≠ [] ∧ ∀ c ∈ t, pyIsSpace c = false
  | [], acc, hacc, t, ht => by
    unfold pySplitAux at ht
    split at ht
    · simp at ht
    · rename_i hne
      rw [List.mem_singleton] at ht
      subst ht
      constructor
      · intro hnil
        rw [List.reverse_eq_nil_iff] at hnil
        subst hnil
        simp at hne
      · intro c hc
        rw [List.mem_reverse] at hc
        exact hacc c hc
  | c :: cs, acc, hacc, t, ht => by
    unfold pySplitAux at ht
    by_cases hsp : pyIsSpace c = true
    · rw [if_pos hsp] at ht
      by_cases hemp : acc.isEmpty = true
      · rw [if_pos hemp] at ht
        exact pySplitAux_sound cs [] (by simp) t ht
      · rw [if_neg hemp] at ht
        rcases List.mem_cons.mp ht with h | h
        · subst h
          constructor
          · intro hnil
            rw [List.reverse_eq_nil_iff] at hnil
            subst hnil
            simp at hemp
          · intro x hx
            rw [List.mem_reverse] at hx
            exact hacc x hx
        · exact pySplitAux_sound cs [] (by simp) t h
    · rw [if_neg hsp] at ht
      refine pySplitAux_sound cs (c :: acc) ?_ t ht
      intro x hx
      rcases List.mem_cons.mp hx with h | h
      · subst h
        exact Bool.eq_false_iff.mpr hsp
      · exact hacc x h

theorem pySplit_sound (s : String) (t : String) (ht : t ∈ pySplit s) :
    t ≠ "" ∧ ∀ c ∈ t.data, pyIsSpace c = false := by
  unfold pySplit at ht
  rcases List.mem_map.mp ht with ⟨td, htd, rfl⟩
  have h := pySplitAux_sound s.data [] (by simp) td htd
  constructor
  · intro hempty
    apply h.1
    have hdata : (String.mk td).data = ("" : String).data := by rw [hempty]
    simpa using hdata
  · intro c hc
    exact h.2 c hc

theorem name_msg_not_mem (e : PhoneBookEntry) (h : e.name ≠ "") :
    "Name cannot be empty" ∉ validate_phone_book_entry e := by
  unfold validate_phone_book_entry
  rw [if_neg h]
  intro hmem
  rw [List.nil_append] at hmem
  rcases List.mem_append.mp hmem with hB | hCD
  · split at hB <;> exact absurd hB (by decide)
  · rcases List.mem_append.mp hCD with hC | hD
    · split at hC <;> exact absurd hC (by decide)
    · split at hD <;> exact absurd hD (by decide)

/-- C10: every Entry produced by the parser has a nonempty name, separator
and phone number; no populated field contains whitespace (the surname is
either a whitespace-free token or the default empty string); consequently
the Validator never returns "Name cannot be empty" for a parser-produced
Entry. -/
theorem parser_entries_invariant (lines : List String) (e : PhoneBookEntry)
    (he : e ∈ read_phone_book lines) :
    e.name ≠ "" ∧ e.separator ≠ "" ∧ e.phone_number ≠ "" ∧
      (∀ c ∈ e.name.data, pyIsSpace c = false) ∧
      (∀ c ∈ e.surname.data, pyIsSpace c = false) ∧
      (∀ c ∈ e.separator.data, pyIsSpace c = false) ∧
      (∀ c ∈ e.phone_number.data, pyIsSpace c = false) ∧
      "Name cannot be empty" ∉ validate_phone_book_entry e := by
  rw [read_phone_book_eq_filterMap] at he
  rcases List.mem_filterMap.mp he with ⟨line, hline, hparse⟩
  unfold parseLine at hparse
  rcases hs : pySplit line with _ | ⟨a, _ | ⟨b, _ | ⟨c, _ | ⟨d, _ | ⟨x, tl⟩⟩⟩⟩⟩ <;>
      rw [hs] at hparse <;> simp only [Option.some.injEq] at hparse
  · cases hparse
  · cases hparse
  · cases hparse
  · subst hparse
    have ha := pySplit_sound line a (by rw [hs]; simp)
    have hb := pySplit_sound line b (by rw [hs]; simp)
    have hc := pySplit_sound line c (by rw [hs]; simp)
    refine ⟨ha.1, hb.1, hc.1, ha.2, ?_, hb.2, hc.2, name_msg_not_mem _ ha.1⟩
    intro y hy
    rw [show ("" : String).data = [] from rfl] at hy
    cases hy
  · subst hparse
    have ha := pySplit_sound line a (by rw [hs]; simp)
    have hb := pySplit_sound line b (by rw [hs]; simp)
    have hc := pySplit_sound line c (by rw [hs]; simp)
    have hd := pySplit_sound line d (by rw [hs]; simp)
    exact ⟨ha.1, hc.1, hd.1, ha.2, hb.2, hc.2, hd.2, name_msg_not_mem _ ha.1⟩
  · cases hparse

/-- C10 witness: the entry parsed from the line "Ann Lee - 123456789"
satisfies every conjunct of the invariant. -/
theorem parser_entries_invariant_witness :
    sampleA.name ≠ "" ∧ sampleA.separator ≠ "" ∧ sampleA.phone_number ≠ "" ∧
      (∀ c ∈ sampleA.name.data, pyIsSpace c = false) ∧
      (∀ c ∈ sampleA.surname.data, pyIsSpace c = false) ∧
      (∀ c ∈ sampleA.separator.data, pyIsSpace c = false) ∧
      (∀ c ∈ sampleA.phone_number.data, pyIsSpace c = false) ∧
      "Name cannot be empty" ∉ validate_phone_book_entry sampleA :=
  parser_entries_invariant ["Ann Lee - 123456789"] sampleA (by decide)
